import Mathlib

/-!
Shallow embedding of the OpenStack provider implementation of jasmin-cloud
(`api/jasmin_cloud/provider/openstack/provider.py`), together with proofs
settling a list of claims about it.

Python strings are modelled as Lean `String`s, but all string operations are
re-implemented over `List Char` so that every definition reduces in the
kernel.  Byte strings are `List Nat` with each element < 256.  The stateful
parts of the provider (remote OpenStack calls) are modelled by explicit
environment records supplying the vendor responses, and each operation
returns the list of mutating vendor calls it performed (the trace) together
with an `Except` result, mirroring the raise/return behaviour of the Python
code.
-/

namespace JasminCloud

/-! ## String helpers (kernel-reducible replacements for Python's str ops) -/

/-- ASCII lower-casing of a single character, as `str.lower` does per char. -/
def charLower (c : Char) : Char :=
  if 65 ≤ c.toNat ∧ c.toNat ≤ 90 then Char.ofNat (c.toNat + 32) else c

/-- `s.lower()` on the character list. -/
def listLower (l : List Char) : List Char := l.map charLower

/-- `s.lower()`. -/
def strLower (s : String) : String := ⟨listLower s.data⟩

/-- Is `p` a prefix of the second list? -/
def pfxOf : List Char → List Char → Bool
  | [], _ => true
  | _ :: _, [] => false
  | a :: as, b :: bs => a == b && pfxOf as bs

/-- Is `p` a contiguous substring of the second list (Python `in`)? -/
def subOf (p : List Char) : List Char → Bool
  | [] => pfxOf p []
  | l@(_ :: t) => pfxOf p l || subOf p t

/-- Python `pat in s` on strings. -/
def strContains (s pat : String) : Bool := subOf pat.data s.data

/-- Left-to-right non-overlapping replacement of `pat` by `rep`,
as Python's `str.replace` (for non-empty `pat`, the only use here).
The fuel argument makes the recursion structural (each step consumes at
least one character, so `l.length` fuel always suffices). -/
def replListAux (pat rep : List Char) : Nat → List Char → List Char
  | _, [] => []
  | 0, l => l
  | fuel + 1, a :: as =>
    if pat ≠ [] ∧ pfxOf pat (a :: as) then
      rep ++ replListAux pat rep fuel (as.drop (pat.length - 1))
    else
      a :: replListAux pat rep fuel as

/-- `str.replace` on character lists. -/
def replList (pat rep l : List Char) : List Char := replListAux pat rep l.length l

/-- Python `s.replace(pat, rep)`. -/
def strReplace (s pat rep : String) : String := ⟨replList pat.data rep.data s.data⟩

/-! ## Error taxonomy

Modelled from the spec: the `errors` module of the repository is not under
`src/`, only its uses are; §7 of the spec gives the taxonomy of error kinds
raised by the provider.  Messages are not tracked, only the kind. -/

inductive DomainError where
  | authentication
  | permissionDenied
  | objectNotFound
  | badInput
  | quotaExceeded
  | invalidOperation
  | improperlyConfigured
  | unsupportedOperation
  | communication
  deriving DecidableEq, Repr

/-! ## Error translation (`convert_exceptions`, provider.py lines 42-117) -/

/-- The `_REPLACEMENTS` table of OpenStack resource-name rewrites. -/
def _REPLACEMENTS : List (String × String) :=
  [("instance", "machine"),
   ("Instance", "Machine"),
   ("flavorRef", "size"),
   ("flavor", "size"),
   ("Flavor", "Size")]

/-- `_replace_resource_names`: fold of `str.replace` over `_REPLACEMENTS`. -/
def _replace_resource_names (message : String) : String :=
  _REPLACEMENTS.foldl (fun a x => strReplace a x.1 x.2) message

/-- The failures that can reach the `convert_exceptions` decorator: a
`ServiceNotSupported` from the api module, a `rackit.ApiError` carrying an
HTTP status code and message, or any other `rackit.RackitError` (transport
failure). -/
inductive VendorFailure where
  | serviceNotSupported (msg : String)
  | apiError (status : Nat) (msg : String)
  | transportError (msg : String)
  deriving DecidableEq, Repr

/-- The error-kind translation performed by the `convert_exceptions`
decorator when the wrapped call raises. -/
def convert_exceptions : VendorFailure → DomainError
  | .serviceNotSupported _ => .unsupportedOperation
  | .transportError _ => .communication
  | .apiError status rawMsg =>
    let message := _replace_resource_names rawMsg
    if status = 400 then .badInput
    else if status = 401 then .authentication
    else if status = 403 then
      if strContains (strLower message) "exceeded" then .quotaExceeded
      else .permissionDenied
    else if status = 404 then .objectNotFound
    else if status = 409 then
      if strContains (strLower message) "exceeded" then .quotaExceeded
      else .invalidOperation
    else if status = 413 then
      if strContains (strLower message) "exceedsavailablequota" then .quotaExceeded
      else .communication
    else .communication

example : convert_exceptions (.apiError 403 "Quota exceeded for instances") =
    .quotaExceeded := by decide

example : convert_exceptions (.apiError 403 "Policy forbids this") =
    .permissionDenied := by decide

example : _replace_resource_names "No instance with flavorRef" =
    "No machine with size" := by decide

end JasminCloud

namespace JasminCloud

/-- C3 counterexample: a 401 vendor API error is translated to
`AuthenticationError`, not to `CommunicationError`, although 401 is not one
of the five status codes (400, 403, 404, 409, 413) the claim enumerates, so
under the claim it would have to surface as a generic `CommunicationError`. -/
theorem c3_counterexample :
    convert_exceptions (.apiError 401 "") = .authentication ∧
    DomainError.authentication ≠ DomainError.communication ∧
    (401 : Nat) ∉ ([400, 403, 404, 409, 413] : List Nat) := by
  refine ⟨by decide, by decide, by decide⟩

/-- C3 (amended): the error-translation step maps a 400 to `BadInputError`
and a 404 to `ObjectNotFoundError`; a 403 to `QuotaExceededError` exactly
when the resource-name-rewritten message contains "exceeded"
case-insensitively and to `PermissionDeniedError` otherwise; a 409 to
`QuotaExceededError` exactly when the message contains "exceeded" and to
`InvalidOperationError` otherwise; a 413 to `QuotaExceededError` exactly
when the message contains "exceedsavailablequota" and to
`CommunicationError` otherwise; a 401 to `AuthenticationError`; every API
error with any other status code, and every non-API transport failure, is
surfaced only as `CommunicationError`. -/
theorem c3_error_translation (msg : String) (status : Nat) :
    convert_exceptions (.apiError 400 msg) = .badInput ∧
    convert_exceptions (.apiError 404 msg) = .objectNotFound ∧
    convert_exceptions (.apiError 403 msg) =
      (if strContains (strLower (_replace_resource_names msg)) "exceeded" then
        DomainError.quotaExceeded else DomainError.permissionDenied) ∧
    convert_exceptions (.apiError 409 msg) =
      (if strContains (strLower (_replace_resource_names msg)) "exceeded" then
        DomainError.quotaExceeded else DomainError.invalidOperation) ∧
    convert_exceptions (.apiError 413 msg) =
      (if strContains (strLower (_replace_resource_names msg)) "exceedsavailablequota" then
        DomainError.quotaExceeded else DomainError.communication) ∧
    convert_exceptions (.apiError 401 msg) = .authentication ∧
    (status ∉ ([400, 401, 403, 404, 409, 413] : List Nat) →
      convert_exceptions (.apiError status msg) = .communication) ∧
    convert_exceptions (.transportError msg) = .communication := by
  refine ⟨rfl, rfl, rfl, rfl, rfl, rfl, ?_, rfl⟩
  intro h
  simp only [List.mem_cons, List.not_mem_nil, or_false, not_or] at h
  obtain ⟨h1, h2, h3, h4, h5, h6⟩ := h
  simp [convert_exceptions, h1, h2, h3, h4, h5, h6]

/-- C3 witness: the amended theorem applied at status 500 with a concrete
message. -/
theorem c3_witness :
    convert_exceptions (.apiError 500 "boom") = .communication :=
  (c3_error_translation "boom" 500).2.2.2.2.2.2.1 (by decide)

end JasminCloud

namespace JasminCloud

/-! ## Traces of mutating vendor calls

Each modelled operation returns, besides its result, the list of mutating
OpenStack calls it issued, in order.  Read-only calls (list/get) are
answered by environment records instead and do not appear in traces. -/

inductive Action where
  | createNetwork (name : String)
  | updateNetworkTags (netId : String) (tags : List String)
  | createSubnet (netId cidr : String)
  | createPort (netId : String) (vnicType : Option String)
  | ensureKeypair (name : String)
  | createServer (name : String)
  | deletePort (portId : String)
  | deleteServer (serverId : String)
  | deleteVolume (volId : String)
  | deleteCluster (clusterId : String)
  | createVolumeAttachment (volId serverId : String)
  | refreshVolume (volId : String)
  | updateFipPort (fipId : String) (portId : Option String)
  | createFip (netId : String)
  deriving DecidableEq, Repr

/-- Association-list lookup by string key (Python `dict.get` on the tables
modelled as literal lists). -/
def lookupStr {α : Type} (k : String) : List (String × α) → Option α
  | [] => none
  | (k2, v) :: rest => if k = k2 then some v else lookupStr k rest

/-! ## Volume translation (`_VOLUME_STATUSES` and `_from_api_volume`,
provider.py lines 1018-1054) -/

/-- Modelled from the spec: the closed volume-status enum of the `dto`
module (not under `src/`); §3 lists its members. -/
inductive VolumeStatus where
  | creating
  | available
  | attaching
  | detaching
  | inUse
  | deleting
  | error
  | other
  deriving DecidableEq, Repr

/-- The `_VOLUME_STATUSES` mapping table. -/
def _VOLUME_STATUSES : List (String × VolumeStatus) :=
  [("creating", .creating),
   ("available", .available),
   ("reserved", .attaching),
   ("attaching", .attaching),
   ("detaching", .detaching),
   ("in-use", .inUse),
   ("deleting", .deleting),
   ("error", .error),
   ("error_deleting", .error),
   ("error_backing-up", .error),
   ("error_restoring", .error),
   ("error_extending", .error)]

/-- The status translation inside `_from_api_volume`:
`self._VOLUME_STATUSES.get(api_volume.status.lower(), dto.VolumeStatus.OTHER)`.
A total function: unmapped strings yield `other`, never an exception. -/
def volumeStatusFor (s : String) : VolumeStatus :=
  (lookupStr (strLower s) _VOLUME_STATUSES).getD .other

/-- A volume record as returned by the OpenStack block-storage API. -/
structure ApiVolumeAttachment where
  server_id : String
  device : String
  deriving DecidableEq, Repr

structure ApiVolume where
  id : String
  name : Option String
  status : String
  size : Nat
  attachments : List ApiVolumeAttachment
  deriving DecidableEq, Repr

/-- The volume DTO (shape from §3 of the spec; the `dto` module itself is
not under `src/`, its fields are read off from the uses in provider.py). -/
structure Volume where
  id : String
  name : String
  status : VolumeStatus
  size : Nat
  machine_id : Option String
  device : Option String
  deriving DecidableEq, Repr

/-- `_from_api_volume`: translate a vendor volume record to the DTO.
`api_volume.name or api_volume.id[:13]` keeps the name when it is truthy
(present and non-empty) and falls back to the first 13 characters of the
id; the first attachment, if any, supplies machine id and device. -/
def _from_api_volume (v : ApiVolume) : Volume :=
  let status := volumeStatusFor v.status
  let attachment := v.attachments.head?
  { id := v.id
    name :=
      match v.name with
      | some n => if n ≠ "" then n else ⟨v.id.data.take 13⟩
      | none => ⟨v.id.data.take 13⟩
    status := status
    size := v.size
    machine_id := attachment.map (fun a => a.server_id)
    device := attachment.map (fun a => a.device) }

/-! ## Volume operations (provider.py lines 1087-1140) -/

/-- `attach_volume`: the volume argument is the already-resolved DTO (a bare
id is resolved by `find_volume` at entry in the source; that resolution is
the caller-supplied DTO here), `machine` the server id, and `refetched` the
DTO the final forced re-fetch returns. -/
def attach_volume (vol : Volume) (machine : String) (refetched : Volume) :
    List Action × Except DomainError Volume :=
  if vol.machine_id = some machine then ([], .ok vol)
  else if vol.status ≠ .available then ([], .error .invalidOperation)
  else ([.createVolumeAttachment vol.id machine, .refreshVolume vol.id], .ok refetched)

/-- `delete_volume`: only `AVAILABLE` or `ERROR` volumes may be deleted;
`refetch` is the outcome of the post-delete `find_volume`. -/
def delete_volume (vol : Volume) (refetch : Except DomainError Volume) :
    List Action × Except DomainError (Option Volume) :=
  if vol.status ≠ .available ∧ vol.status ≠ .error then
    ([], .error .invalidOperation)
  else
    match refetch with
    | .ok v => ([.deleteVolume vol.id], .ok (some v))
    | .error .objectNotFound => ([.deleteVolume vol.id], .ok none)
    | .error e => ([.deleteVolume vol.id], .error e)

/-! ## Machines, ports, clusters: the parts needed by the delete operations -/

/-- Projection of the machine DTO: the claims about machines depend only on
identity, so the address/metadata extraction of `_from_api_server` is not
re-modelled field by field. -/
structure Machine where
  id : String
  name : String
  deriving DecidableEq, Repr

/-- A network port as returned by the OpenStack network API. -/
structure Port where
  id : String
  device_id : String
  network_id : String
  deriving DecidableEq, Repr

/-- Modelled from the spec: the Kubernetes cluster status enum of the `dto`
module (not under `src/`); constructed from the vendor lifecycle-state
string, with `DELETE_IN_PROGRESS` the value forced by cluster deletion. -/
inductive KubernetesClusterStatus where
  | createInProgress
  | createComplete
  | createFailed
  | updateInProgress
  | updateComplete
  | updateFailed
  | deleteInProgress
  | deleteComplete
  | deleteFailed
  | otherState (raw : String)
  deriving DecidableEq, Repr

/-- Projection of the Kubernetes cluster DTO: identity and status, the
fields the delete operation reads or rewrites. -/
structure KubernetesCluster where
  id : String
  name : String
  status : KubernetesClusterStatus
  deriving DecidableEq, Repr

/-- `delete_machine`: first delete every port whose `device_id` is the
machine, then the server, then best-effort re-fetch (`refetch` is the
outcome of the post-delete `find_machine`). -/
def delete_machine (machine : String) (ports : List Port)
    (refetch : Except DomainError Machine) :
    List Action × Except DomainError (Option Machine) :=
  let acts :=
    ((ports.filter (fun p => p.device_id = machine)).map
      (fun p => Action.deletePort p.id)) ++ [.deleteServer machine]
  match refetch with
  | .ok m => (acts, .ok (some m))
  | .error .objectNotFound => (acts, .ok none)
  | .error e => (acts, .error e)

/-- `delete_kubernetes_cluster`: submit the delete, then re-fetch and force
the status to `DELETE_IN_PROGRESS` (the vendor does not reflect the
transition synchronously); an already-vanished cluster yields `none`. -/
def delete_kubernetes_cluster (cluster : String)
    (refetch : Except DomainError KubernetesCluster) :
    List Action × Except DomainError (Option KubernetesCluster) :=
  match refetch with
  | .ok c => ([.deleteCluster cluster], .ok (some { c with status := .deleteInProgress }))
  | .error .objectNotFound => ([.deleteCluster cluster], .ok none)
  | .error e => ([.deleteCluster cluster], .error e)

end JasminCloud

namespace JasminCloud

/-- C7: volume status translation is a total function of the vendor status
string: each of the twelve table keys (matched case-insensitively, i.e. any
string lower-casing to the key) maps to its fixed enum value, and any
string outside the table maps to `other`.  Totality and determinism hold by
construction: `volumeStatusFor` is a total Lean function, so translation
never fails on any input string. -/
theorem c7_volume_status_translation (s : String) :
    (strLower s = "creating" → volumeStatusFor s = .creating) ∧
    (strLower s = "available" → volumeStatusFor s = .available) ∧
    (strLower s = "reserved" → volumeStatusFor s = .attaching) ∧
    (strLower s = "attaching" → volumeStatusFor s = .attaching) ∧
    (strLower s = "detaching" → volumeStatusFor s = .detaching) ∧
    (strLower s = "in-use" → volumeStatusFor s = .inUse) ∧
    (strLower s = "deleting" → volumeStatusFor s = .deleting) ∧
    (strLower s = "error" → volumeStatusFor s = .error) ∧
    (strLower s = "error_deleting" → volumeStatusFor s = .error) ∧
    (strLower s = "error_backing-up" → volumeStatusFor s = .error) ∧
    (strLower s = "error_restoring" → volumeStatusFor s = .error) ∧
    (strLower s = "error_extending" → volumeStatusFor s = .error) ∧
    (lookupStr (strLower s) _VOLUME_STATUSES = none → volumeStatusFor s = .other) := by
  refine ⟨?_, ?_, ?_, ?_, ?_, ?_, ?_, ?_, ?_, ?_, ?_, ?_, ?_⟩ <;>
    intro h <;> simp only [volumeStatusFor, h] <;> decide

/-- C7 witness: the translation theorem applied to the concrete vendor
string "AVAILABLE" (an upper-cased table key). -/
theorem c7_witness : volumeStatusFor "AVAILABLE" = .available :=
  (c7_volume_status_translation "AVAILABLE").2.1 (by decide)

/-- C5: `attach_volume` returns the volume unchanged, with no mutating
call, when it is already attached to the target machine; raises
`InvalidOperationError` without submitting an attachment when it is not
attached to that machine and its status is not `AVAILABLE`; and otherwise
submits the attachment, forces a re-fetch, and returns the refreshed DTO. -/
theorem c5_attach_volume (vol : Volume) (machine : String) (refetched : Volume) :
    (vol.machine_id = some machine →
      attach_volume vol machine refetched = ([], .ok vol)) ∧
    (vol.machine_id ≠ some machine → vol.status ≠ .available →
      attach_volume vol machine refetched = ([], .error .invalidOperation)) ∧
    (vol.machine_id ≠ some machine → vol.status = .available →
      attach_volume vol machine refetched =
        ([.createVolumeAttachment vol.id machine, .refreshVolume vol.id], .ok refetched)) := by
  refine ⟨?_, ?_, ?_⟩ <;> intro h <;> simp [attach_volume, h]

/-- C5 witness: the three branches of the attach theorem at concrete
volumes. -/
theorem c5_witness :
    attach_volume ⟨"v1", "v1", .inUse, 10, some "m1", some "/dev/vdb"⟩ "m1"
        ⟨"v1", "v1", .inUse, 10, some "m1", some "/dev/vdb"⟩ =
      ([], .ok ⟨"v1", "v1", .inUse, 10, some "m1", some "/dev/vdb"⟩) ∧
    attach_volume ⟨"v2", "v2", .creating, 10, none, none⟩ "m1"
        ⟨"v2", "v2", .creating, 10, none, none⟩ =
      ([], .error .invalidOperation) ∧
    attach_volume ⟨"v3", "v3", .available, 10, none, none⟩ "m1"
        ⟨"v3", "v3", .inUse, 10, some "m1", some "/dev/vdb"⟩ =
      ([.createVolumeAttachment "v3" "m1", .refreshVolume "v3"],
        .ok ⟨"v3", "v3", .inUse, 10, some "m1", some "/dev/vdb"⟩) :=
  ⟨(c5_attach_volume _ "m1" _).1 (by decide),
   (c5_attach_volume _ "m1" _).2.1 (by decide) (by decide),
   (c5_attach_volume _ "m1" _).2.2 (by decide) (by decide)⟩

/-- C9: for `delete_machine`, `delete_volume` (on a deletable volume) and
`delete_kubernetes_cluster`, a post-delete re-fetch reporting
`ObjectNotFoundError` makes the operation return `none` successfully; the
not-found error is never propagated. -/
theorem c9_delete_not_found (machine : String) (ports : List Port)
    (vol : Volume) (cluster : String) :
    (delete_machine machine ports (.error .objectNotFound)).2 = .ok none ∧
    (vol.status = .available ∨ vol.status = .error →
      (delete_volume vol (.error .objectNotFound)).2 = .ok none) ∧
    (delete_kubernetes_cluster cluster (.error .objectNotFound)).2 = .ok none := by
  refine ⟨rfl, ?_, rfl⟩
  intro h
  rcases h with h | h <;> simp [delete_volume, h]

/-- C9 witness: the not-found theorem applied to a concrete available
volume (the clauses without hypotheses are instantiated alongside). -/
theorem c9_witness :
    (delete_volume ⟨"v1", "v1", .available, 10, none, none⟩
      (.error .objectNotFound)).2 = .ok none :=
  (c9_delete_not_found "m1" [] ⟨"v1", "v1", .available, 10, none, none⟩ "c1").2.1
    (Or.inl (by decide))

end JasminCloud

namespace JasminCloud

/-! ## Network resolution (provider.py lines 593-680) -/

/-- A network as returned by the OpenStack network API.  `isExternal`
models the `router:external` attribute and `isShared` the `shared`
attribute used by the external-network queries. -/
structure Network where
  id : String
  name : String
  tags : List String
  isExternal : Bool
  isShared : Bool
  deriving DecidableEq, Repr

/-- The read-only view of the network service used by resolution: the
networks visible to the tenancy, and the id the vendor will assign to a
network created during the call. -/
structure NetSvc where
  networks : List Network
  freshNetworkId : String
  deriving DecidableEq, Repr

/-- The provider configuration fields consulted by the modelled
operations (constructor arguments of `Provider`/`ScopedSession`). -/
structure ProviderConfig where
  metadataPfx : String
  internalNetTemplate : Option String
  externalNetTemplate : Option String
  internalNetCidr : String
  azBackdoorNetMap : List (String × String)
  backdoorVnicType : Option String
  deriving DecidableEq, Repr

/-- `_tagged_network`: the first network carrying the tag
`portal-<net_type>`, or `none`. -/
def _tagged_network (svc : NetSvc) (netType : String) : Option Network :=
  (svc.networks.filter (fun n => n.tags.contains ("portal-" ++ netType))).head?

/-- Interpolation of the tenancy name into a net-name template
(`template.format(tenant_name = ...)`; the templates used contain only the
`\x7btenant_name\x7d` placeholder). -/
def formatTemplate (template tenantName : String) : String :=
  strReplace template "\x7btenant_name\x7d" tenantName

/-- `networks.find_by_name`: the first network with exactly the given
name. -/
def find_by_name (svc : NetSvc) (name : String) : Option Network :=
  (svc.networks.filter (fun n => n.name = name)).head?

/-- `_templated_network`: look the templated name up; a missing network is
a fatal configuration error (`InvalidOperationError`). -/
def _templated_network (svc : NetSvc) (template netType tenantName : String) :
    Except DomainError Network :=
  match find_by_name svc (formatTemplate template tenantName) with
  | some n => .ok n
  | none =>
    -- netType only feeds the log and error message
    let _ := netType
    .error .invalidOperation

/-- `_tenant_network`: tagged network first; then the name template (whose
failure is fatal); then, only when `create_network` is set, creation of a
`portal-internal` network, its role tag, and a subnet with the configured
CIDR; otherwise no network. -/
def _tenant_network (cfg : ProviderConfig) (svc : NetSvc) (tenantName : String)
    (create_network : Bool) : List Action × Except DomainError (Option Network) :=
  match _tagged_network svc "internal" with
  | some n => ([], .ok (some n))
  | none =>
    match cfg.internalNetTemplate with
    | some template =>
      match _templated_network svc template "internal" tenantName with
      | .ok n => ([], .ok (some n))
      | .error e => ([], .error e)
    | none =>
      if create_network then
        ([.createNetwork "portal-internal",
          .updateNetworkTags svc.freshNetworkId ["portal-internal"],
          .createSubnet svc.freshNetworkId cfg.internalNetCidr],
         .ok (some
          { id := svc.freshNetworkId
            name := "portal-internal"
            tags := ["portal-internal"]
            isExternal := false
            isShared := false }))
      else ([], .ok none)

/-- The candidate set of the count-based external fallback: the external
unshared networks of the tenancy followed by the shared external networks
(the two queries of `gen_external_networks`). -/
def externalCandidates (svc : NetSvc) : List Network :=
  svc.networks.filter (fun n => n.isExternal && !n.isShared) ++
    svc.networks.filter (fun n => n.isExternal && n.isShared)

/-- `_external_network`: tagged network first; then the name template
(whose failure is fatal); then the count-based fallback, which succeeds
only on exactly one candidate. -/
def _external_network (cfg : ProviderConfig) (svc : NetSvc) (tenantName : String) :
    Except DomainError Network :=
  match _tagged_network svc "external" with
  | some n => .ok n
  | none =>
    match cfg.externalNetTemplate with
    | some template => _templated_network svc template "external" tenantName
    | none =>
      match externalCandidates svc with
      | [n] => .ok n
      | _ => .error .invalidOperation

end JasminCloud

namespace JasminCloud

/-- C2: network resolution priority is strict.  A network tagged with the
portal role tag is returned unconditionally, for any template and
count-based configuration and (internally) whether or not creation was
requested; and when no tagged network exists but a template is configured
and its interpolated name matches no network, resolution fails with
`InvalidOperationError` instead of falling through to internal-network
creation or count-based external selection. -/
theorem c2_resolution_priority (cfg : ProviderConfig) (svc : NetSvc)
    (tenantName : String) (create_network : Bool) (n : Network) (t : String) :
    (_tagged_network svc "internal" = some n →
      _tenant_network cfg svc tenantName create_network = ([], .ok (some n))) ∧
    (_tagged_network svc "external" = some n →
      _external_network cfg svc tenantName = .ok n) ∧
    (_tagged_network svc "internal" = none → cfg.internalNetTemplate = some t →
      find_by_name svc (formatTemplate t tenantName) = none →
      _tenant_network cfg svc tenantName create_network = ([], .error .invalidOperation)) ∧
    (_tagged_network svc "external" = none → cfg.externalNetTemplate = some t →
      find_by_name svc (formatTemplate t tenantName) = none →
      _external_network cfg svc tenantName = .error .invalidOperation) := by
  refine ⟨?_, ?_, ?_, ?_⟩
  · intro h; simp [_tenant_network, h]
  · intro h; simp [_external_network, h]
  · intro h1 h2 h3; simp [_tenant_network, _templated_network, h1, h2, h3]
  · intro h1 h2 h3; simp [_external_network, _templated_network, h1, h2, h3]

/-- C2 witness: a world with one tagged internal network and a template
pointing at a non-existent external network; the first and last clauses of
the priority theorem are applied there. -/
theorem c2_witness :
    _tenant_network
        ⟨"p_", none, some "ext-net", "192.168.3.0/24", [], none⟩
        ⟨[⟨"n1", "net1", ["portal-internal"], false, false⟩], "fresh"⟩
        "demo" true =
      ([], .ok (some ⟨"n1", "net1", ["portal-internal"], false, false⟩)) ∧
    _external_network
        ⟨"p_", none, some "ext-net", "192.168.3.0/24", [], none⟩
        ⟨[⟨"n1", "net1", ["portal-internal"], false, false⟩], "fresh"⟩
        "demo" =
      .error .invalidOperation :=
  ⟨(c2_resolution_priority _ _ "demo" true
      ⟨"n1", "net1", ["portal-internal"], false, false⟩ "ext-net").1 (by decide),
   (c2_resolution_priority _ _ "demo" true
      ⟨"n1", "net1", ["portal-internal"], false, false⟩ "ext-net").2.2.2
    (by decide) (by decide) (by decide)⟩

/-- C8: when neither a tagged external network nor a configured template
applies, external resolution returns the unique candidate when the
combined owned-unshared plus shared external candidate list has exactly
one element, and fails with `InvalidOperationError` at every other
cardinality. -/
theorem c8_external_fallback (cfg : ProviderConfig) (svc : NetSvc)
    (tenantName : String) (n : Network) :
    (_tagged_network svc "external" = none → cfg.externalNetTemplate = none →
      externalCandidates svc = [n] →
      _external_network cfg svc tenantName = .ok n) ∧
    (_tagged_network svc "external" = none → cfg.externalNetTemplate = none →
      (externalCandidates svc).length ≠ 1 →
      _external_network cfg svc tenantName = .error .invalidOperation) := by
  constructor
  · intro h1 h2 h3; simp [_external_network, h1, h2, h3]
  · intro h1 h2 h3
    simp only [_external_network, h1, h2]
    rcases hc : externalCandidates svc with _ | ⟨a, _ | ⟨b, t⟩⟩
    · rfl
    · rw [hc] at h3; simp at h3
    · rfl

/-- C8 witness: a world with two shared external networks and no tag or
template, where resolution fails. -/
theorem c8_witness :
    _external_network ⟨"p_", none, none, "192.168.3.0/24", [], none⟩
        ⟨[⟨"e1", "ext1", [], true, true⟩, ⟨"e2", "ext2", [], true, true⟩], "fresh"⟩
        "demo" =
      .error .invalidOperation :=
  (c8_external_fallback _ _ "demo" ⟨"e1", "ext1", [], true, true⟩).2
    (by decide) (by decide) (by decide)

end JasminCloud

namespace JasminCloud

/-! ## External IPs (provider.py lines 919-1016) -/

/-- A floating IP as held by the OpenStack network API.  `port_id` is the
port the IP is bound to, if any. -/
structure Fip where
  id : String
  address : String
  port_id : Option String
  deriving DecidableEq, Repr

/-- The slice of the vendor state that `attach_external_ip` consults:
network service (for tenant-network resolution), ports, floating IPs. -/
structure IpWorld where
  net : NetSvc
  ports : List Port
  fips : List Fip
  deriving DecidableEq, Repr

/-- The floating IPs bound to a given port. -/
def boundFips (fips : List Fip) (portId : String) : List Fip :=
  fips.filter (fun f => f.port_id = some portId)

/-- `floatingips.find_by_port_id`: the first floating IP bound to the
port. -/
def find_by_port_id (fips : List Fip) (portId : String) : Option Fip :=
  (boundFips fips portId).head?

/-- The port query of `attach_external_ip`: the first port with the given
`device_id` on the tenant network; no tenant network means no port. -/
def find_machine_port (tn : Option Network) (ports : List Port) (machine : String) :
    Option Port :=
  match tn with
  | some n => (ports.filter (fun p => p.device_id = machine && p.network_id = n.id)).head?
  | none => none

/-- The tail of `attach_external_ip` after any eviction: fetch the floating
IP by id (404 becomes `ObjectNotFoundError`) and bind it to the port. -/
def attachIpFinish (acts : List Action) (fips1 : List Fip) (ip : String) (port : Port) :
    List Action × Except DomainError (List Fip × Fip) :=
  match fips1.find? (fun f => f.id = ip) with
  | none => (acts, .error .objectNotFound)
  | some fip0 =>
    (acts ++ [.updateFipPort ip (some port.id)],
     .ok (fips1.map (fun f => if f.id = ip then { f with port_id := some port.id } else f),
          { fip0 with port_id := some port.id }))

/-- `attach_external_ip`: resolve the tenant network (without creation);
find the machine's port on it (`InvalidOperationError` if none); evict any
floating IP currently bound to that port; then bind the requested IP to
the port.  Returns the updated floating-IP table and the updated record. -/
def attach_external_ip (cfg : ProviderConfig) (w : IpWorld) (tenantName ip machine : String) :
    List Action × Except DomainError (List Fip × Fip) :=
  match _tenant_network cfg w.net tenantName false with
  | (acts, .error e) => (acts, .error e)
  | (acts, .ok tn) =>
    match find_machine_port tn w.ports machine with
    | none => (acts, .error .invalidOperation)
    | some port =>
      match find_by_port_id w.fips port.id with
      | some current =>
        attachIpFinish (acts ++ [.updateFipPort current.id none])
          (w.fips.map (fun f => if f.id = current.id then { f with port_id := none } else f))
          ip port
      | none => attachIpFinish acts w.fips ip port

/-! ## Tenancies (provider.py lines 369-410) -/

/-- A project as reported by the identity service. -/
structure Project where
  id : String
  name : String
  enabled : Bool
  deriving DecidableEq, Repr

/-- The tenancy DTO. -/
structure Tenancy where
  id : String
  name : String
  deriving DecidableEq, Repr

/-- `UnscopedSession.tenancies`: the enabled projects as (id, name)
tenancies. -/
def tenancies (projects : List Project) : List Tenancy :=
  (projects.filter (fun p => p.enabled)).map (fun p => ⟨p.id, p.name⟩)

/-- The duck-typed tenancy argument of `scoped_session`: a DTO or a bare
identifier. -/
inductive TenancyRef where
  | dto (t : Tenancy)
  | bare (id : String)
  deriving DecidableEq, Repr

/-- `UnscopedSession.scoped_session`, returning the tenancy the produced
scoped session is bound to.  A bare identifier is resolved by scanning the
tenancy list; `scopeGranted` models whether the vendor accepts the scoped
connection (a refusal surfaces as `ObjectNotFoundError`). -/
def scoped_session (projects : List Project) (ref : TenancyRef) (scopeGranted : Bool) :
    Except DomainError Tenancy :=
  match ref with
  | .dto t => if scopeGranted then .ok t else .error .objectNotFound
  | .bare id =>
    match (tenancies projects).find? (fun t => t.id = id) with
    | some t => if scopeGranted then .ok t else .error .objectNotFound
    | none => .error .objectNotFound

end JasminCloud

namespace JasminCloud

/-- A list whose head is `c` and whose length is at most one is `[c]`. -/
theorem head_of_len_le_one {α : Type} {l : List α} {c : α}
    (hh : l.head? = some c) (hl : l.length ≤ 1) : l = [c] := by
  cases l with
  | nil => simp at hh
  | cons a t =>
    cases t with
    | nil => simp_all
    | cons b t2 => simp at hl

/-- C6: `attach_external_ip` raises `InvalidOperationError` when the
machine has no port on the resolved tenant network; otherwise, given the
vendor invariant that at most one floating IP is bound to the port, a
successful call leaves the floating-IP table with exactly the requested IP
bound to that port (any previously bound IP was unbound first). -/
theorem c6_attach_external_ip (cfg : ProviderConfig) (w : IpWorld)
    (tenantName ip machine : String) (acts0 : List Action) (tn : Option Network)
    (port : Port) :
    (_tenant_network cfg w.net tenantName false = (acts0, .ok tn) →
      find_machine_port tn w.ports machine = none →
      (attach_external_ip cfg w tenantName ip machine).2 = .error .invalidOperation) ∧
    (_tenant_network cfg w.net tenantName false = (acts0, .ok tn) →
      find_machine_port tn w.ports machine = some port →
      (boundFips w.fips port.id).length ≤ 1 →
      ∀ fips2 fip2,
        (attach_external_ip cfg w tenantName ip machine).2 = .ok (fips2, fip2) →
        ∀ f ∈ fips2, (f.port_id = some port.id ↔ f.id = ip)) := by
  constructor
  · intro h1 h2
    simp only [attach_external_ip, h1, h2]
  · intro h1 h2 hlen fips2 fip2 hok f hf
    simp only [attach_external_ip, h1, h2] at hok
    rcases hcur : find_by_port_id w.fips port.id with _ | current
    · rw [hcur] at hok
      simp only [attachIpFinish] at hok
      rcases hfind : w.fips.find? (fun f => f.id = ip) with _ | fip0
      · rw [hfind] at hok; simp at hok
      · rw [hfind] at hok
        simp only [Except.ok.injEq, Prod.mk.injEq] at hok
        obtain ⟨hfips, hfip⟩ := hok
        subst hfips
        rcases List.mem_map.1 hf with ⟨g, hg, rfl⟩
        by_cases hgip : g.id = ip
        · simp [hgip]
        · simp only [hgip, ite_false, if_neg, not_false_iff]
          simp only [hgip, iff_false]
          have hnb : ∀ x ∈ w.fips, ¬x.port_id = some port.id := by
            simpa [find_by_port_id, boundFips] using hcur
          exact hnb g hg
    · rw [hcur] at hok
      simp only [attachIpFinish] at hok
      rcases hfind : (w.fips.map
          (fun f => if f.id = current.id then { f with port_id := none } else f)).find?
          (fun f => f.id = ip) with _ | fip0
      · rw [hfind] at hok; simp at hok
      · rw [hfind] at hok
        simp only [Except.ok.injEq, Prod.mk.injEq] at hok
        obtain ⟨hfips, hfip⟩ := hok
        subst hfips
        rcases List.mem_map.1 hf with ⟨g1, hg1, rfl⟩
        by_cases hg1ip : g1.id = ip
        · simp [hg1ip]
        · simp only [hg1ip, ite_false, if_neg, not_false_iff]
          simp only [hg1ip, iff_false]
          rcases List.mem_map.1 hg1 with ⟨g0, hg0, rfl⟩
          by_cases hg0c : g0.id = current.id
          · simp [hg0c]
          · simp only [hg0c, ite_false, if_neg, not_false_iff]
            intro habs
            have hmemb : g0 ∈ boundFips w.fips port.id := by
              simp only [boundFips, List.mem_filter]
              exact ⟨hg0, by simp [habs]⟩
            have hone : boundFips w.fips port.id = [current] :=
              head_of_len_le_one (by simpa [find_by_port_id] using hcur) hlen
            rw [hone] at hmemb
            simp only [List.mem_singleton] at hmemb
            exact hg0c (by rw [hmemb])

/-- C6 witness: a world with a tagged tenant network, a machine port on
it, one floating IP bound to the port and another unbound; after attaching
the unbound IP, the single-binding property is read off the element of the
updated table that the theorem constrains. -/
theorem c6_witness :
    ((⟨"fip2", "5.6.7.8", some "port1"⟩ : Fip).port_id = some "port1" ↔
      (⟨"fip2", "5.6.7.8", some "port1"⟩ : Fip).id = "fip2") :=
  (c6_attach_external_ip
      ⟨"portal_", none, none, "192.168.3.0/24", [], none⟩
      ⟨⟨[⟨"tn1", "tenant-net", ["portal-internal"], false, false⟩], "fresh"⟩,
        [⟨"port1", "m1", "tn1"⟩],
        [⟨"fip1", "1.2.3.4", some "port1"⟩, ⟨"fip2", "5.6.7.8", none⟩]⟩
      "demo" "fip2" "m1" []
      (some ⟨"tn1", "tenant-net", ["portal-internal"], false, false⟩)
      ⟨"port1", "m1", "tn1"⟩).2
    (by rfl) (by decide) (by decide)
    [⟨"fip1", "1.2.3.4", none⟩, ⟨"fip2", "5.6.7.8", some "port1"⟩]
    ⟨"fip2", "5.6.7.8", some "port1"⟩
    (by rfl)
    ⟨"fip2", "5.6.7.8", some "port1"⟩
    (by decide)

/-- C10: `tenancies` returns exactly the enabled projects as (id, name)
tenancy values, omitting every disabled project; and `scoped_session`
called with the bare id of a disabled project (no enabled project sharing
that id) fails with `ObjectNotFoundError`, because identifier resolution
scans only the enabled tenancy list. -/
theorem c10_tenancies_enabled (projects : List Project) (t : Tenancy)
    (p : Project) (g : Bool) :
    (t ∈ tenancies projects ↔
      ∃ q ∈ projects, q.enabled ∧ t = ⟨q.id, q.name⟩) ∧
    (p ∈ projects → p.enabled = false →
      (∀ q ∈ projects, q.enabled → q.id ≠ p.id) →
      scoped_session projects (.bare p.id) g = .error .objectNotFound) := by
  constructor
  · simp only [tenancies, List.mem_map, List.mem_filter]
    constructor
    · rintro ⟨q, ⟨hq, he⟩, rfl⟩; exact ⟨q, hq, he, rfl⟩
    · rintro ⟨q, hq, he, rfl⟩; exact ⟨q, ⟨hq, he⟩, rfl⟩
  · intro hp hpe hq
    have hnone : (tenancies projects).find? (fun t => t.id = p.id) = none := by
      apply List.find?_eq_none.2
      intro t ht
      rcases List.mem_map.1 ht with ⟨q, hqf, rfl⟩
      rcases List.mem_filter.1 hqf with ⟨hqmem, hqen⟩
      simp only [decide_eq_true_eq]
      exact hq q hqmem (by simpa using hqen)
    simp [scoped_session, hnone]

/-- C10 witness: one enabled and one disabled project; the disabled
project's bare id is not resolvable. -/
theorem c10_witness :
    scoped_session
        [⟨"p1", "alpha", true⟩, ⟨"p2", "beta", false⟩]
        (.bare "p2") true =
      .error .objectNotFound :=
  (c10_tenancies_enabled
      [⟨"p1", "alpha", true⟩, ⟨"p2", "beta", false⟩]
      ⟨"p1", "alpha"⟩ ⟨"p2", "beta", false⟩ true).2
    (by decide) (by decide) (by decide)

end JasminCloud

namespace JasminCloud

/-! ## Keypair naming (provider.py lines 57-61 and 682-704)

`_get_or_create_keypair` derives the keypair name from the username and
the SSH key:
`hashlib.md5(base64.b64decode(ssh_key.split()[1])).hexdigest()` truncated
to 8 characters, appended to the sanitised username.  MD5, base64 and the
Python string primitives are modelled in full below (bytes are `List Nat`
with elements < 256). -/

/-- Python `str.split()` with no argument: split on runs of whitespace,
discarding empty fields. -/
def pySplitAux : List Char → List Char → List String
  | [], acc => if acc.isEmpty then [] else [⟨acc.reverse⟩]
  | c :: cs, acc =>
    if c.isWhitespace then
      if acc.isEmpty then pySplitAux cs [] else ⟨acc.reverse⟩ :: pySplitAux cs []
    else pySplitAux cs (c :: acc)

/-- Python `str.split()` on a string. -/
def pySplit (s : String) : List String := pySplitAux s.data []

/-- Is the character ASCII alphanumeric (the class `[a-zA-Z0-9]` of
`sanitise_username`)? -/
def isAlnum (c : Char) : Bool :=
  decide ((48 ≤ c.toNat ∧ c.toNat ≤ 57) ∨ (65 ≤ c.toNat ∧ c.toNat ≤ 90) ∨
    (97 ≤ c.toNat ∧ c.toNat ≤ 122))

/-- Worker for `sanitise_username`: a run of non-alphanumerics becomes one
dash (`re.sub` with pattern `[^a-zA-Z0-9]+`).  Fuel keeps the recursion
structural; the input length is always enough fuel. -/
def sanitiseAux : Nat → List Char → List Char
  | 0, l => l
  | _, [] => []
  | fuel + 1, c :: cs =>
    if isAlnum c then c :: sanitiseAux fuel cs
    else '-' :: sanitiseAux fuel (cs.dropWhile (fun d => !isAlnum d))

/-- `sanitise_username`: replace every run of non-alphanumerics with a
dash. -/
def sanitise_username (username : String) : String :=
  ⟨sanitiseAux username.data.length username.data⟩

example : sanitise_username "joe.bloggs@example.org" = "joe-bloggs-example-org" := by decide

/-- The 6-bit value of a base64 alphabet character. -/
def b64Val (c : Char) : Option Nat :=
  let n := c.toNat
  if 65 ≤ n ∧ n ≤ 90 then some (n - 65)
  else if 97 ≤ n ∧ n ≤ 122 then some (n - 71)
  else if 48 ≤ n ∧ n ≤ 57 then some (n + 4)
  else if c = '+' then some 62
  else if c = '/' then some 63
  else none

/-- Base64 decoding of canonical input (4-character groups, `=`-padding
only in the final group), as `base64.b64decode` on the well-formed payloads
the keypair derivation is applied to.  Malformed input yields `none` (the
Python call raises out of the provider). -/
def b64DecodeGroups : List Char → Option (List Nat)
  | [] => some []
  | c1 :: c2 :: c3 :: c4 :: rest =>
    match b64Val c1, b64Val c2 with
    | some v1, some v2 =>
      if c3 = '=' then
        if c4 = '=' ∧ rest = [] then some [(v1 * 262144 + v2 * 4096) / 65536] else none
      else
        match b64Val c3 with
        | some v3 =>
          if c4 = '=' then
            if rest = [] then
              some [(v1 * 262144 + v2 * 4096 + v3 * 64) / 65536,
                    (v1 * 262144 + v2 * 4096 + v3 * 64) / 256 % 256]
            else none
          else
            match b64Val c4 with
            | some v4 =>
              match b64DecodeGroups rest with
              | some bs =>
                some ([(v1 * 262144 + v2 * 4096 + v3 * 64 + v4) / 65536,
                       (v1 * 262144 + v2 * 4096 + v3 * 64 + v4) / 256 % 256,
                       (v1 * 262144 + v2 * 4096 + v3 * 64 + v4) % 256] ++ bs)
              | none => none
            | none => none
        | none => none
    | _, _ => none
  | _ => none

example : b64DecodeGroups "QUJD".data = some [65, 66, 67] := by decide
example : b64DecodeGroups "QQ==".data = some [65] := by decide

/-! ### MD5 (RFC 1321), on byte lists, all arithmetic mod 2^32 -/

/-- 2^32. -/
def w32 : Nat := 4294967296

/-- Bitwise complement within 32 bits (inputs stay below 2^32). -/
def not32 (x : Nat) : Nat := 4294967295 - x

/-- 32-bit left rotation (for x < 2^32 and 0 < s < 32). -/
def rotl32 (x s : Nat) : Nat := ((x * 2 ^ s) % w32) + x / 2 ^ (32 - s)

/-- The MD5 round function for step i. -/
def md5F (i b c d : Nat) : Nat :=
  if i < 16 then (b &&& c) ||| (not32 b &&& d)
  else if i < 32 then (d &&& b) ||| (not32 d &&& c)
  else if i < 48 then b ^^^ c ^^^ d
  else c ^^^ (b ||| not32 d)

/-- The message-word index for step i. -/
def md5G (i : Nat) : Nat :=
  if i < 16 then i
  else if i < 32 then (5 * i + 1) % 16
  else if i < 48 then (3 * i + 5) % 16
  else (7 * i) % 16

/-- The per-step left-rotation amounts. -/
def md5S : List Nat :=
  [7, 12, 17, 22, 7, 12, 17, 22, 7, 12, 17, 22, 7, 12, 17, 22,
   5, 9, 14, 20, 5, 9, 14, 20, 5, 9, 14, 20, 5, 9, 14, 20,
   4, 11, 16, 23, 4, 11, 16, 23, 4, 11, 16, 23, 4, 11, 16, 23,
   6, 10, 15, 21, 6, 10, 15, 21, 6, 10, 15, 21, 6, 10, 15, 21]

/-- The sine-derived additive constants. -/
def md5K : List Nat :=
  [0xd76aa478, 0xe8c7b756, 0x242070db, 0xc1bdceee,
   0xf57c0faf, 0x4787c62a, 0xa8304613, 0xfd469501,
   0x698098d8, 0x8b44f7af, 0xffff5bb1, 0x895cd7be,
   0x6b901122, 0xfd987193, 0xa679438e, 0x49b40821,
   0xf61e2562, 0xc040b340, 0x265e5a51, 0xe9b6c7aa,
   0xd62f105d, 0x02441453, 0xd8a1e681, 0xe7d3fbc8,
   0x21e1cde6, 0xc33707d6, 0xf4d50d87, 0x455a14ed,
   0xa9e3e905, 0xfcefa3f8, 0x676f02d9, 0x8d2a4c8a,
   0xfffa3942, 0x8771f681, 0x6d9d6122, 0xfde5380c,
   0xa4beea44, 0x4bdecfa9, 0xf6bb4b60, 0xbebfbc70,
   0x289b7ec6, 0xeaa127fa, 0xd4ef3085, 0x04881d05,
   0xd9d4d039, 0xe6db99e5, 0x1fa27cf8, 0xc4ac5665,
   0xf4292244, 0x432aff97, 0xab9423a7, 0xfc93a039,
   0x655b59c3, 0x8f0ccc92, 0xffeff47d, 0x85845dd1,
   0x6fa87e4f, 0xfe2ce6e0, 0xa3014314, 0x4e0811a1,
   0xf7537e82, 0xbd3af235, 0x2ad7d2bb, 0xeb86d391]

/-- One MD5 step on the state (a, b, c, d). -/
def md5Round (M : List Nat) (st : Nat × Nat × Nat × Nat) (i : Nat) :
    Nat × Nat × Nat × Nat :=
  let a := st.1
  let b := st.2.1
  let c := st.2.2.1
  let d := st.2.2.2
  let f := (md5F i b c d + a + md5K.getD i 0 + M.getD (md5G i) 0) % w32
  (d, (b + rotl32 f (md5S.getD i 0)) % w32, b, c)

/-- Process one 16-word block. -/
def md5ProcessBlock (st : Nat × Nat × Nat × Nat) (M : List Nat) :
    Nat × Nat × Nat × Nat :=
  let r := (List.range 64).foldl (md5Round M) st
  ((st.1 + r.1) % w32, (st.2.1 + r.2.1) % w32,
   (st.2.2.1 + r.2.2.1) % w32, (st.2.2.2 + r.2.2.2) % w32)

/-- The little-endian bytes of a number, lowest first. -/
def natLEBytes (count x : Nat) : List Nat :=
  (List.range count).map (fun i => x / 256 ^ i % 256)

/-- Group bytes into little-endian 32-bit words. -/
def leWords : List Nat → List Nat
  | b0 :: b1 :: b2 :: b3 :: rest =>
    (b0 + 256 * b1 + 65536 * b2 + 16777216 * b3) :: leWords rest
  | _ => []

/-- MD5 padding: a 0x80 byte, zeros to 56 mod 64, and the 64-bit
little-endian bit length. -/
def md5Pad (msg : List Nat) : List Nat :=
  msg ++ 0x80 :: List.replicate ((120 - (msg.length + 1) % 64) % 64) 0
      ++ natLEBytes 8 (msg.length * 8 % 2 ^ 64)

/-- Split into 64-byte blocks (fuel keeps the recursion structural; the
list length is always enough fuel since each block consumes 64 bytes). -/
def md5ChunksAux : Nat → List Nat → List (List Nat)
  | 0, _ => []
  | _, [] => []
  | fuel + 1, l@(_ :: _) => l.take 64 :: md5ChunksAux fuel (l.drop 64)

/-- The padded message as 64-byte blocks. -/
def md5Chunks (l : List Nat) : List (List Nat) := md5ChunksAux l.length l

/-- The MD5 initial state. -/
def md5Init : Nat × Nat × Nat × Nat := (0x67452301, 0xefcdab89, 0x98badcfe, 0x10325476)

/-- The 16-byte MD5 digest of a byte list. -/
def md5Digest (msg : List Nat) : List Nat :=
  let r := ((md5Chunks (md5Pad msg)).map leWords).foldl md5ProcessBlock md5Init
  natLEBytes 4 r.1 ++ natLEBytes 4 r.2.1 ++ natLEBytes 4 r.2.2.1 ++ natLEBytes 4 r.2.2.2

/-- Lower-case hex digit. -/
def hexDigitChar (n : Nat) : Char :=
  if n < 10 then Char.ofNat (48 + n) else Char.ofNat (87 + n)

/-- Lower-case hex rendering of bytes (`hexdigest`). -/
def bytesToHex (bs : List Nat) : String :=
  ⟨bs.foldr (fun b acc => hexDigitChar (b / 16) :: hexDigitChar (b % 16) :: acc) []⟩

/-- `hashlib.md5(...).hexdigest()`. -/
def md5hex (msg : List Nat) : String := bytesToHex (md5Digest msg)

set_option maxRecDepth 100000 in
example : md5hex [] = "d41d8cd98f00b204e9800998ecf8427e" := by decide

set_option maxRecDepth 100000 in
example : md5hex [97, 98, 99] = "900150983cd24fb0d6963f7d28e17f72" := by decide

/-- `ssh_key.split()[1]`: the whitespace-separated field holding the
base64 payload of an OpenSSH public key. -/
def secondField (s : String) : Option String := (pySplit s).get? 1

/-- Worker shared with machine creation: the name
`<sanitised-username>-<first 8 hex chars of md5(b64decode(key payload))>`
computed by `_get_or_create_keypair`.  `none` models the Python exceptions
escaping on a key with no second field or a non-base64 payload. -/
def keypairNameFor (username ssh_key : String) : Option String :=
  match secondField ssh_key with
  | none => none
  | some payload =>
    match b64DecodeGroups payload.data with
    | none => none
    | some bytes =>
      some (sanitise_username username ++ "-" ++ (⟨(md5hex bytes).data.take 8⟩ : String))

end JasminCloud

namespace JasminCloud

/-- C4 counterexample: two distinct SSH keys sharing the base64 payload
field but differing in the comment field yield the identical keypair name,
so changing the key content does not always change the derived name. -/
theorem c4_counterexample :
    keypairNameFor "user" "ssh-rsa QUJD alice" =
      keypairNameFor "user" "ssh-rsa QUJD bob" ∧
    ("ssh-rsa QUJD alice" : String) ≠ "ssh-rsa QUJD bob" :=
  ⟨rfl, by decide⟩

/-- C4 (amended): the keypair name is a pure function of the sanitised
username and the key's base64 payload field (the second
whitespace-separated field), equal to
`sanitise(username) ++ "-" ++` the first 8 hex characters of the MD5
digest of the decoded payload.  Keys with equal payload fields (for
example, differing only in the comment) yield the identical name, and keys
whose payloads have different truncated digests yield different names. -/
theorem c4_keypair_name (u k k2 payload payload2 : String) (bytes bytes2 : List Nat) :
    (secondField k = some payload →
      b64DecodeGroups payload.data = some bytes →
      keypairNameFor u k =
        some (sanitise_username u ++ "-" ++ (⟨(md5hex bytes).data.take 8⟩ : String))) ∧
    (secondField k = secondField k2 →
      keypairNameFor u k = keypairNameFor u k2) ∧
    (secondField k = some payload →
      secondField k2 = some payload2 →
      b64DecodeGroups payload.data = some bytes →
      b64DecodeGroups payload2.data = some bytes2 →
      (md5hex bytes).data.take 8 ≠ (md5hex bytes2).data.take 8 →
      keypairNameFor u k ≠ keypairNameFor u k2) := by
  refine ⟨?_, ?_, ?_⟩
  · intro h1 h2; simp [keypairNameFor, h1, h2]
  · intro h; simp only [keypairNameFor, h]
  · intro h1 h2 h3 h4 hne
    simp only [keypairNameFor, h1, h2, h3, h4]
    intro habs
    apply hne
    simp only [Option.some.injEq] at habs
    have hdata := congrArg String.data habs
    simp only [String.data_append] at hdata
    exact List.append_cancel_left hdata

/-- C4 witness: the formula clause of the naming theorem applied to a
concrete key whose payload decodes to the bytes of "ABC". -/
theorem c4_witness :
    keypairNameFor "joe.bloggs" "ssh-rsa QUJD joe@host" =
      some (sanitise_username "joe.bloggs" ++ "-" ++
        (⟨(md5hex [65, 66, 67]).data.take 8⟩ : String)) :=
  (c4_keypair_name "joe.bloggs" "ssh-rsa QUJD joe@host" "" "QUJD" "" [65, 66, 67] []).1
    (by decide) (by decide)

end JasminCloud

namespace JasminCloud

/-! ## Machine creation (`create_machine`, provider.py lines 806-871) -/

/-- The image DTO; `metadata` is the prefix-stripped portal metadata of
`_from_api_image`. -/
structure Image where
  id : String
  name : String
  isPublic : Bool
  metadata : List (String × String)
  deriving DecidableEq, Repr

/-- The size DTO. -/
structure Size where
  id : String
  name : String
  cpus : Nat
  ram_mb : Nat
  disk_gb : Nat
  deriving DecidableEq, Repr

/-- Duck-typed image argument: DTO or bare id. -/
inductive ImageRef where
  | dto (i : Image)
  | bare (id : String)
  deriving Repr

/-- Duck-typed size argument: DTO or bare id. -/
inductive SizeRef where
  | dto (s : Size)
  | bare (id : String)
  deriving Repr

/-- One entry of the `networks` server parameter: a network uuid or a
pre-created port. -/
inductive NetAttachment where
  | uuid (netId : String)
  | port (portId : String)
  deriving DecidableEq, Repr

/-- The server-creation parameters accumulated by `create_machine` and
submitted to `servers.create`. -/
structure ServerParams where
  name : String
  image_id : String
  flavor_id : String
  networks : List NetAttachment
  availability_zone : Option String
  key_name : Option String
  metadata : List (String × String)
  user_data : Option String
  deriving DecidableEq, Repr

/-- The vendor responses `create_machine` consumes: the network service
(for tenant-network resolution), image lookup by id, the index
`random.choice` picks in the availability-zone map, and the ids assigned
to a created port and server. -/
structure CreateMachineEnv where
  svc : NetSvc
  findImage : String → Option Image
  azIndex : Nat
  freshPortId : String
  createdServerId : String

/-- A failure of machine creation: a raised domain error, or a Python
exception outside the taxonomy (only a malformed SSH key, whose
IndexError/binascii error would escape the provider untranslated). -/
inductive CreateError where
  | domain (e : DomainError)
  | pythonCrash
  deriving DecidableEq, Repr

/-- Python truthiness of `image.metadata.get(key)`: present and
non-empty. -/
def truthyLookup (d : List (String × String)) (k : String) : Bool :=
  match lookupStr k d with
  | some v => decide (v ≠ "")
  | none => false

/-- `dict` upsert: replace in place or append. -/
def dictUpsert (d : List (String × String)) (k v : String) : List (String × String) :=
  if (d.find? (fun kv => kv.1 = k)).isSome then
    d.map (fun kv => if kv.1 = k then (k, v) else kv)
  else d ++ [(k, v)]

/-- Python `dict.update`: later entries win. -/
def dictUpdate (d u : List (String × String)) : List (String × String) :=
  u.foldl (fun a kv => dictUpsert a kv.1 kv.2) d

/-- The bytes of an (ASCII) string, as `str.encode` on the userdata
scripts. -/
def strBytes (s : String) : List Nat := s.data.map Char.toNat

/-- The base64 alphabet character for a 6-bit value. -/
def b64Char (n : Nat) : Char :=
  if n < 26 then Char.ofNat (65 + n)
  else if n < 52 then Char.ofNat (97 + n - 26)
  else if n < 62 then Char.ofNat (48 + n - 52)
  else if n = 62 then '+' else '/'

/-- Base64 encoding of a byte list (`base64.b64encode`). -/
def b64EncodeList : List Nat → List Char
  | [] => []
  | [b1] =>
    [b64Char (b1 * 65536 / 262144), b64Char (b1 * 65536 / 4096 % 64), '=', '=']
  | [b1, b2] =>
    [b64Char ((b1 * 65536 + b2 * 256) / 262144), b64Char ((b1 * 65536 + b2 * 256) / 4096 % 64),
     b64Char ((b1 * 65536 + b2 * 256) / 64 % 64), '=']
  | b1 :: b2 :: b3 :: rest =>
    [b64Char ((b1 * 65536 + b2 * 256 + b3) / 262144),
     b64Char ((b1 * 65536 + b2 * 256 + b3) / 4096 % 64),
     b64Char ((b1 * 65536 + b2 * 256 + b3) / 64 % 64),
     b64Char ((b1 * 65536 + b2 * 256 + b3) % 64)] ++ b64EncodeList rest

example : (⟨b64EncodeList (strBytes "ABC")⟩ : String) = "QUJD" := by decide

/-- The tail of `create_machine` from the keypair step on: resolve or
create the keypair when a key is given, compose the machine metadata
(tenancy marker, then prefixed image metadata, then prefixed caller
metadata, caller winning), base64-encode any userdata, submit. -/
def finishCreate (cfg : ProviderConfig) (tenancyName name : String)
    (img : Image) (flavorId : String) (networks : List NetAttachment)
    (az : Option String) (keyName : Option String)
    (metadata : Option (List (String × String))) (userdata : Option String)
    (acts : List Action) : List Action × Except CreateError ServerParams :=
  let md1 := dictUpdate [(cfg.metadataPfx ++ "tenant_name", tenancyName)]
    (img.metadata.map (fun kv => (cfg.metadataPfx ++ kv.1, kv.2)))
  let md2 :=
    match metadata with
    | some m => dictUpdate md1 (m.map (fun kv => (cfg.metadataPfx ++ kv.1, kv.2)))
    | none => md1
  (acts ++ [.createServer name],
   .ok { name := name
         image_id := img.id
         flavor_id := flavorId
         networks := networks
         availability_zone := az
         key_name := keyName
         metadata := md2
         user_data := userdata.map (fun u => (⟨b64EncodeList (strBytes u)⟩ : String)) })

/-- The keypair step of `create_machine` (between port creation and
metadata composition). -/
def keypairStep (cfg : ProviderConfig) (username tenancyName name : String)
    (img : Image) (flavorId : String) (networks : List NetAttachment)
    (az : Option String) (ssh_key : Option String)
    (metadata : Option (List (String × String))) (userdata : Option String)
    (acts : List Action) : List Action × Except CreateError ServerParams :=
  match ssh_key with
  | some key =>
    match keypairNameFor username key with
    | none => (acts, .error .pythonCrash)
    | some kn =>
      finishCreate cfg tenancyName name img flavorId networks az (some kn)
        metadata userdata (acts ++ [.ensureKeypair kn])
  | none =>
    finishCreate cfg tenancyName name img flavorId networks az none
      metadata userdata acts

/-- `create_machine`: resolve the image (a bare id that resolves to
nothing is `BadInputError`); resolve the tenant network with creation
enabled; when the image metadata requests the backdoor network
(`<prefix>private_if` truthy), require a non-empty availability-zone map
(`ImproperlyConfiguredError` otherwise), pick a zone, create a port on the
zone's network (with the configured vNIC type), pin the zone unless it is
`nova`; then keypair, metadata, userdata, and submission. -/
def create_machine (cfg : ProviderConfig) (env : CreateMachineEnv)
    (username tenancyName name : String) (image : ImageRef) (size : SizeRef)
    (ssh_key : Option String) (metadata : Option (List (String × String)))
    (userdata : Option String) : List Action × Except CreateError ServerParams :=
  match (match image with
         | .dto i => some i
         | .bare id => env.findImage id) with
  | none => ([], .error (.domain .badInput))
  | some img =>
    let flavorId := match size with | .dto s => s.id | .bare id => id
    match _tenant_network cfg env.svc tenancyName true with
    | (acts, .error e) => (acts, .error (.domain e))
    | (acts, .ok tn) =>
      let tnId := match tn with | some n => n.id | none => ""
      if truthyLookup img.metadata (cfg.metadataPfx ++ "private_if") then
        match cfg.azBackdoorNetMap with
        | [] => (acts, .error (.domain .improperlyConfigured))
        | c :: cs =>
          let pick := (c :: cs).getD (env.azIndex % (c :: cs).length) c
          keypairStep cfg username tenancyName name img flavorId
            [.uuid tnId, .port env.freshPortId]
            (if pick.1 ≠ "nova" then some pick.1 else none)
            ssh_key metadata userdata
            (acts ++ [.createPort pick.2 cfg.backdoorVnicType])
      else
        keypairStep cfg username tenancyName name img flavorId [.uuid tnId]
          none ssh_key metadata userdata acts

end JasminCloud

namespace JasminCloud

/-- The mutating calls of tenant-network resolution are either none or
exactly the network/tags/subnet creation triple; in particular it never
creates a port or server. -/
theorem tenant_network_trace_shape (cfg : ProviderConfig) (svc : NetSvc)
    (tenantName : String) (create : Bool) (acts : List Action)
    (r : Except DomainError (Option Network)) :
    _tenant_network cfg svc tenantName create = (acts, r) →
    acts = [] ∨
      acts = [.createNetwork "portal-internal",
              .updateNetworkTags svc.freshNetworkId ["portal-internal"],
              .createSubnet svc.freshNetworkId cfg.internalNetCidr] := by
  unfold _tenant_network
  intro h
  split at h
  · injection h with ha hr; exact Or.inl ha.symm
  · split at h
    · split at h
      · injection h with ha hr; exact Or.inl ha.symm
      · injection h with ha hr; exact Or.inl ha.symm
    · split at h
      · injection h with ha hr; exact Or.inr ha.symm
      · injection h with ha hr; exact Or.inl ha.symm

/-- C1 counterexample: with no pre-existing tenant network, creating a
machine from an image that requests the backdoor network while the
availability-zone map is empty does fail with `ImproperlyConfiguredError`,
but only after the internal network has been created by the very same
call, refuting "no internal network is created as part of the failing
call". -/
theorem c1_counterexample :
    (create_machine ⟨"portal_", none, none, "192.168.3.0/24", [], none⟩
        ⟨⟨[], "net-new"⟩, fun _ => none, 0, "port-new", "srv-new"⟩
        "user" "demo" "vm1"
        (.dto ⟨"img1", "image-1", true, [("portal_private_if", "1")]⟩)
        (.bare "flv1") none none none).2 = .error (.domain .improperlyConfigured) ∧
    Action.createNetwork "portal-internal" ∈
      (create_machine ⟨"portal_", none, none, "192.168.3.0/24", [], none⟩
        ⟨⟨[], "net-new"⟩, fun _ => none, 0, "port-new", "srv-new"⟩
        "user" "demo" "vm1"
        (.dto ⟨"img1", "image-1", true, [("portal_private_if", "1")]⟩)
        (.bare "flv1") none none none).1 :=
  ⟨rfl, by decide⟩

/-- C1 (amended): when the image metadata requests the backdoor network
and the availability-zone map is empty, and tenant-network resolution
itself completes, `create_machine` fails with `ImproperlyConfiguredError`
and its trace is exactly that of tenant-network resolution: no port and no
server is created, though the internal network (with tag and subnet) may
have been created by the resolution step if it did not already exist. -/
theorem c1_backdoor_requires_map (cfg : ProviderConfig) (env : CreateMachineEnv)
    (username tenancyName name : String) (img : Image) (size : SizeRef)
    (ssh_key : Option String) (metadata : Option (List (String × String)))
    (userdata : Option String) (acts : List Action) (tn : Option Network) :
    truthyLookup img.metadata (cfg.metadataPfx ++ "private_if") = true →
    cfg.azBackdoorNetMap = [] →
    _tenant_network cfg env.svc tenancyName true = (acts, .ok tn) →
    create_machine cfg env username tenancyName name (.dto img) size
        ssh_key metadata userdata = (acts, .error (.domain .improperlyConfigured)) ∧
    ∀ a ∈ acts, (∀ nid v, a ≠ .createPort nid v) ∧ (∀ n2, a ≠ .createServer n2) := by
  intro h1 h2 h3
  constructor
  · simp only [create_machine, h3, h1, h2, if_true]
  · intro a ha
    rcases tenant_network_trace_shape cfg env.svc tenancyName true acts (.ok tn) h3 with
      hsh | hsh
    · rw [hsh] at ha; simp at ha
    · rw [hsh] at ha
      simp only [List.mem_cons, List.not_mem_nil, or_false] at ha
      rcases ha with rfl | rfl | rfl
      · exact ⟨fun nid v => by simp, fun n2 => by simp⟩
      · exact ⟨fun nid v => by simp, fun n2 => by simp⟩
      · exact ⟨fun nid v => by simp, fun n2 => by simp⟩

/-- C1 witness: the amended theorem applied in a world whose tenant
network already exists (tagged), so the resolution trace is empty and the
call fails with `ImproperlyConfiguredError` having created nothing. -/
theorem c1_witness :
    create_machine ⟨"portal_", none, none, "192.168.3.0/24", [], none⟩
        ⟨⟨[⟨"tn1", "tenant-net", ["portal-internal"], false, false⟩], "net-new"⟩,
          fun _ => none, 0, "port-new", "srv-new"⟩
        "user" "demo" "vm1"
        (.dto ⟨"img1", "image-1", true, [("portal_private_if", "1")]⟩)
        (.bare "flv1") none none none =
      ([], .error (.domain .improperlyConfigured)) :=
  (c1_backdoor_requires_map ⟨"portal_", none, none, "192.168.3.0/24", [], none⟩
      ⟨⟨[⟨"tn1", "tenant-net", ["portal-internal"], false, false⟩], "net-new"⟩,
        fun _ => none, 0, "port-new", "srv-new"⟩
      "user" "demo" "vm1" ⟨"img1", "image-1", true, [("portal_private_if", "1")]⟩
      (.bare "flv1") none none none []
      (some ⟨"tn1", "tenant-net", ["portal-internal"], false, false⟩)
      (by decide) (by decide) (by rfl)).1

end JasminCloud
